import Mathlib

/-!
Formal model of the SkyCoPilot backend decision core.

The definitions below are shallow embeddings of the Python sources:
  solver.py  (solve_roster_optimization)    -> the CP-SAT formulation, as a
             predicate on boolean variable valuations; solving is delegated
             to an external solver, so a VALID outcome is modelled as any
             valuation satisfying the posted constraints,
  agents.py  (AgentSystem.run_healing, _pilot_agent_decision,
             _safety_agent_validate)        -> run_healing and friends,
  main.py    (calculate_impact, heal option generation and ranking,
             resolve)                        -> calculate_impact, genOptions,
             selectBest, resolve.

Python floats (fatigue scores, probabilities) are modelled as rationals,
datetimes as integer minutes, MongoDB collections as lists of records with
find_one = first match and update_one = update of the first match, and
Python dicts as association lists with insert-or-replace semantics.
Record fields model dictionary keys that are present on every document
produced by the seeding code; where the Python code uses .get with a
default, the field is total and a comment records the default.
-/

/-- Python prefix test on explicit character lists (String.data), so that
all proofs reduce in the kernel. -/
def listPrefix : List Char → List Char → Bool
  | [], _ => true
  | _ :: _, [] => false
  | a :: as, b :: bs => a == b && listPrefix as bs

/-- hasSub pat l is true when pat occurs as a contiguous sublist of l;
this is the model of the Python substring operator on strings. -/
def hasSub (pat : List Char) : List Char → Bool
  | [] => listPrefix pat []
  | c :: rest => listPrefix pat (c :: rest) || hasSub pat rest

/-- Model of the Python expression pat in hay (substring containment). -/
def strContains (hay pat : String) : Bool := hasSub pat.data hay.data

/-- Model of the Python method s.startswith(p). -/
def strStartsWith (s p : String) : Bool := listPrefix p.data s.data

/-- Stable insertion into an ascending list: a is placed after every
element b with le b a, so elements inserted later stay after equal
elements inserted earlier, matching the stability of Python sorted
and of the modelled MongoDB sort. -/
def insertStable (le : α → α → Bool) (a : α) : List α → List α
  | [] => [a]
  | b :: bs => if le b a then b :: insertStable le a bs else a :: b :: bs

/-- Stable ascending sort (model of Python sorted with a key, and of a
MongoDB ascending sort on one field). -/
def sortStable (le : α → α → Bool) (l : List α) : List α :=
  l.foldl (fun acc a => insertStable le a acc) []

/-- Insert-or-replace into an association list of records with a key
projection: model of a Python dict assignment d[key a] = a. The first
occurrence keeps its position, its value is replaced. -/
def dictInsert (key : α → String) (acc : List α) (a : α) : List α :=
  if acc.any (fun b => key b == key a) then
    acc.map (fun b => if key b == key a then a else b)
  else acc ++ [a]

/-- The value list of a Python dict built by inserting the elements of l
in order (model of a dict comprehension keyed by key, .values()). -/
def dictValues (key : α → String) (l : List α) : List α :=
  l.foldl (dictInsert key) []

/-- Model of MongoDB update_one on a list store: only the first record
matching the predicate is transformed. -/
def updateFirst (p : α → Bool) (u : α → α) : List α → List α
  | [] => []
  | a :: as => if p a then u a :: as else a :: updateFirst p u as

/-! ## solver.py : solve_roster_optimization -/

/-- Pilot record as consumed by solve_roster_optimization (solver.py).
Key fields read by the formulation. -/
structure SolverPilot where
  pid : String
  fatigue_score : ℚ
  last_night_duty : Bool
deriving DecidableEq

/-- Flight record as consumed by solve_roster_optimization (solver.py). -/
structure SolverFlight where
  fid : String
  is_night_duty : Bool
deriving DecidableEq

/-- The constraint set posted to CP-SAT by solve_roster_optimization:
for x a valuation of the booleans x[p_id, f_id],
  1. each flight has exactly one true pilot variable,
  2a. a pilot with fatigue_score greater than 80 is forced out of every pair,
  2b. a pair of a last_night_duty pilot and a night-duty flight is forced out.
When the external solver reports OPTIMAL or FEASIBLE, the status VALID is
returned with the mapping induced by the true variables; any such solution
satisfies this predicate, so every VALID mapping is covered by it. -/
def solverConstraintsHold (pilots : List SolverPilot) (flights : List SolverFlight)
    (x : String → String → Bool) : Prop :=
  (∀ f ∈ flights, (pilots.countP (fun p => x p.pid f.fid)) = 1) ∧
  (∀ p ∈ pilots, ∀ f ∈ flights, p.fatigue_score > 80 → x p.pid f.fid = false) ∧
  (∀ p ∈ pilots, ∀ f ∈ flights, p.last_night_duty = true ∧ f.is_night_duty = true →
      x p.pid f.fid = false)

/-! ## agents.py : AgentSystem -/

/-- Pilot dict as consumed by AgentSystem (agents.py); fatigue_score and
last_night_duty are read with .get (defaults 0 and falsy), the documents
always carry them. -/
structure AgentsPilot where
  pid : String
  fatigue_score : ℚ
  last_night_duty : Bool
deriving DecidableEq

/-- Flight dict as consumed by AgentSystem (agents.py); is_night_duty and
landings are read with .get (defaults falsy and 0). -/
structure AgentsFlight where
  fid : String
  is_night_duty : Bool
  landings : Nat
deriving DecidableEq

/-- AgentSystem._pilot_agent_decision: the stage-1 heuristic screen.
Returns (response, reason) exactly as the Python method does. -/
def pilot_agent_decision (pilot : AgentsPilot) (flight : AgentsFlight) : String × String :=
  if pilot.fatigue_score > 80 then ("REJECT", "Fatigue > 80")
  else if flight.is_night_duty && pilot.last_night_duty then ("REJECT", "Back-to-back Night Duty")
  else if 60 ≤ pilot.fatigue_score ∧ pilot.fatigue_score ≤ 80 then
    ("ACCEPT_WITH_REST", "Fatigue 60-80")
  else ("ACCEPT", "OK")

/-- AgentSystem._safety_agent_validate: the stage-2 gatekeeper. -/
def safety_agent_validate (pilot : AgentsPilot) (flight : AgentsFlight) : Bool :=
  if pilot.fatigue_score > 80 then false
  else if flight.is_night_duty && pilot.last_night_duty then false
  else if flight.is_night_duty ∧ flight.landings > 2 then false
  else true

/-- The pilot iteration order of run_healing:
sorted(self.pilots.values(), key=lambda x: x[fatigue_score]). -/
def sortedPilotsByFatigue (pilots : List AgentsPilot) : List AgentsPilot :=
  sortStable (fun a b => a.fatigue_score ≤ b.fatigue_score) pilots

/-- The inner pilot loop of run_healing for one flight: the first pilot in
fatigue order whose stage-1 response is not REJECT and who passes the
safety agent is committed (the loop breaks); otherwise no pilot is found. -/
def healOne (pilotD : List AgentsPilot) (flight : AgentsFlight) : Option AgentsPilot :=
  (sortedPilotsByFatigue pilotD).find? (fun p =>
    (pilot_agent_decision p flight).1 != "REJECT" && safety_agent_validate p flight)

/-- One iteration of the outer flight loop of run_healing: an id missing
from the flight dict is skipped, otherwise the first pilot passing both
stages is committed into the assignments dict. -/
def healStep (pilotD : List AgentsPilot) (flightD : List AgentsFlight)
    (assignments : List (String × String)) (fid : String) : List (String × String) :=
  match flightD.find? (fun f => f.fid == fid) with
  | none => assignments
  | some flight =>
    match healOne pilotD flight with
    | some p => dictInsert (fun pr => pr.1) assignments (fid, p.pid)
    | none => assignments

/-- AgentSystem.run_healing. The constructor builds dicts keyed by _id from
the pilot and flight lists; run_healing walks the unassigned flight ids in
order, skips ids missing from the flight dict, and records
assignments[fid] = pid for the first pilot passing both stages.
The result models the assignments dict as an association list. -/
def run_healing (pilots : List AgentsPilot) (flights : List AgentsFlight)
    (unassigned_flight_ids : List String) : List (String × String) :=
  let pilotD := dictValues (fun p => p.pid) pilots
  let flightD := dictValues (fun f => f.fid) flights
  unassigned_flight_ids.foldl (healStep pilotD flightD) []

/-! ## main.py : flight and pilot documents -/

/-- Pilot document as stored in db.pilots and read by main.py (the fields
used by calculate_impact, the heal option generation and resolve). -/
structure MainPilot where
  pid : String
  name : String
  base : String
  currentDutyMinutes : Int
  maxLegalDutyMinutes : Int
  fatigue_score : ℚ
  status : String
deriving DecidableEq

/-- Flight document as stored in db.flights and read by main.py.
Datetimes are minutes on an integer clock. delayReason and
predictedFailureReason are optional; their rendering into reason text uses
.get with default empty string (a stored Python None would render as the
four letters None inside an f-string; that text contains none of the
classification keywords, so classification is unaffected). -/
structure MainFlight where
  fid : String
  flightNumber : String
  origin : String
  destination : String
  scheduledDeparture : Int
  scheduledArrival : Int
  flightDurationMinutes : Option Int
  status : String
  delayMinutes : Int
  delayReason : Option String
  assignedPilotId : String
  Pilot_Name : String
  boardingAllowed : Bool
  predictedFailure : Bool
  predictedFailureProbability : ℚ
  predictedFailureReason : Option String
  manual_swap_note : Option String
deriving DecidableEq

/-- main.py calculate_impact(flight_id): reads the flight and its assigned
pilot; a falsy flightDurationMinutes (absent or 0) is treated as 120;
projected duty at landing is currentDutyMinutes + duration + delayMinutes
(delayMinutes default 0, the field is always present). The update_data
written by update_one sets predictedFailure, predictedFailureProbability
(0.95 on an FDTL violation, else 0.1, not touched by the sickness
override), predictedFailureReason, boardingAllowed, and sets status to
CRITICAL exactly when a violation (FDTL or SICK pilot) was detected.
If the flight or the pilot is not found the store is returned unchanged. -/
def calculate_impact (flights : List MainFlight) (pilots : List MainPilot)
    (flight_id : String) : List MainFlight :=
  match flights.find? (fun f => f.fid == flight_id) with
  | none => flights
  | some flight =>
    match pilots.find? (fun p => p.pid == flight.assignedPilotId) with
    | none => flights
    | some pilot =>
      let dur : Int := match flight.flightDurationMinutes with
        | none => 120
        | some d => if d = 0 then 120 else d
      let projected := pilot.currentDutyMinutes + dur + flight.delayMinutes
      let v1 : Bool := decide (projected > pilot.maxLegalDutyMinutes)
      let sick : Bool := pilot.status == "SICK"
      let viol : Bool := v1 || sick
      updateFirst (fun f => f.fid == flight_id) (fun f =>
        let base : MainFlight :=
          { f with
            predictedFailure := viol,
            predictedFailureProbability := if v1 then mkRat 95 100 else mkRat 1 10,
            predictedFailureReason :=
              if sick then some "Pilot Incapacitated (Sick)"
              else if v1 then some "Maximum FDTL Exceeded" else none,
            boardingAllowed := if sick then false else !v1 }
        if viol then { base with status := "CRITICAL" } else base) flights

/-! ## main.py : remediation options -/

/-- The payload dict of a remediation option. flight_id is read with
direct indexing in resolve (always present on generated options);
pilot_id, target_flight_id and minutes are action-specific. -/
structure Payload where
  flight_id : String
  pilot_id : Option String := none
  target_flight_id : Option String := none
  minutes : Option Int := none
deriving DecidableEq

/-- A remediation option dict as built by the heal endpoint. oid models
the id key. The three co2 fields model the co2_impact sub-dict written by
the annotation loop (empty before annotation). -/
structure RemOption where
  oid : String
  title : String
  description : String
  action_type : String
  risk_level : String
  payload : Payload
  reasoning : String
  co2_value : String := ""
  co2_score : String := ""
  co2_color : String := ""
deriving DecidableEq

/-- Stand-in for strftime rendering of a departure time inside a cosmetic
description string; no claim depends on the clock format. -/
def timeHHMM (t : Int) : String := toString t

/-- The combined reason text classified by the heal endpoint:
an f-string joining predictedFailureReason and delayReason (defaults
empty) with one space. -/
def combined_reason (fl : MainFlight) : String :=
  fl.predictedFailureReason.getD "" ++ " " ++ fl.delayReason.getD ""

/-- The reason variable of the heal endpoint:
predictedFailureReason or-else delayReason (Python or on strings,
empty string falsy). -/
def reasonOf (fl : MainFlight) : String :=
  let r := fl.predictedFailureReason.getD ""
  if r == "" then fl.delayReason.getD "" else r

/-- Replacement-crew candidates: db.pilots.find on status AVAILABLE,
currentDutyMinutes below 300 and base equal to the flight origin (origin
read with .get, default DEL, the field is always present), sorted
ascending by fatigue_score, first 3. -/
def replacementCandidates (fl : MainFlight) (pilots : List MainPilot) : List MainPilot :=
  (sortStable (fun a b => a.fatigue_score ≤ b.fatigue_score)
    (pilots.filter (fun p =>
      p.status == "AVAILABLE" && decide (p.currentDutyMinutes < 300) &&
      p.base == fl.origin))).take 3

/-- Swap-candidate flights: db.flights.find on same origin, status ON_TIME
or SCHEDULED, a different id, scheduled departure between now and now plus
6 hours, sorted by soonest departure, first 3. -/
def swapCandidates (fl : MainFlight) (flights : List MainFlight) (now : Int) :
    List MainFlight :=
  (sortStable (fun a b => a.scheduledDeparture ≤ b.scheduledDeparture)
    (flights.filter (fun c =>
      c.origin == fl.origin &&
      (c.status == "ON_TIME" || c.status == "SCHEDULED") &&
      !(c.fid == fl.fid) &&
      decide (now ≤ c.scheduledDeparture) &&
      decide (c.scheduledDeparture ≤ now + 360)))).take 3

/-- An ASSIGN option for a replacement pilot r (note its id key is the
string OPT_SWAP_ followed by the pilot id). -/
def mkAssignOption (fl : MainFlight) (r : MainPilot) : RemOption :=
  { oid := "OPT_SWAP_" ++ r.pid,
    title := "Assign Reserve: " ++ r.name,
    description := "Ready at " ++ r.base ++ ". Duty: " ++ toString r.currentDutyMinutes ++
      "m. Fatigue: " ++ toString r.fatigue_score,
    action_type := "ASSIGN",
    risk_level := "LOW",
    payload := { flight_id := fl.fid, pilot_id := some r.pid },
    reasoning := "Standard Protocol: Crew Incapacitation requires immediate replacement with fresh reserve." }

/-- The FDTL-branch ASSIGN option differs from the sickness one only in
its reasoning text. -/
def mkAssignOptionFdtl (fl : MainFlight) (r : MainPilot) : RemOption :=
  { mkAssignOption fl r with
    reasoning := "FDTL Exceeded: Fresh crew required to operate flight legalities." }

/-- A SWAP_FLIGHT option for a candidate flight c (its id key is
OPT_SWAP_FLIGHT_ followed by the candidate flight id). -/
def mkSwapFlightOption (fl : MainFlight) (c : MainFlight) : RemOption :=
  { oid := "OPT_SWAP_FLIGHT_" ++ c.fid,
    title := "Swap w/ Flight " ++ c.flightNumber,
    description := "Use aircraft from " ++ c.flightNumber ++ " (Dep: " ++
      timeHHMM c.scheduledDeparture ++ ")",
    action_type := "SWAP_FLIGHT",
    risk_level := "LOW",
    payload := { flight_id := fl.fid, target_flight_id := some c.fid },
    reasoning := "Optimal Solution: Unaffected aircraft/slot available from " ++
      c.flightNumber ++ "." }

/-- The OPT_HOLD fallback (weather/fog), a 60 minute DELAY_APPLY. -/
def holdOption (fl : MainFlight) : RemOption :=
  { oid := "OPT_HOLD", title := "Hold Pattern (Wait 60m)",
    description := "Wait for conditions to improve.",
    action_type := "DELAY_APPLY", risk_level := "MEDIUM",
    payload := { flight_id := fl.fid, minutes := some 60 },
    reasoning := "Holding is safer than diverting, but impacts fuel." }

/-- The OPT_FIX fallback (technical/hydraulic), a 45 minute DELAY_APPLY. -/
def fixOption (fl : MainFlight) : RemOption :=
  { oid := "OPT_FIX", title := "Quick Repair (45m)",
    description := "Attempt minor repair.",
    action_type := "DELAY_APPLY", risk_level := "MEDIUM",
    payload := { flight_id := fl.fid, minutes := some 45 },
    reasoning := "Repair is viable but carries risk of further delay." }

/-- The OPT_DELAY_ATC fallback, a 90 minute DELAY_APPLY. -/
def atcOption (fl : MainFlight) : RemOption :=
  { oid := "OPT_DELAY_ATC", title := "Wait for Slot (90m)",
    description := "Ground hold until ATC clearance.",
    action_type := "DELAY_APPLY", risk_level := "LOW",
    payload := { flight_id := fl.fid, minutes := some 90 },
    reasoning := "Compliance with ATC mandate is mandatory." }

/-- The always-added OPT_CANCEL option. -/
def cancelOption (fl : MainFlight) : RemOption :=
  { oid := "OPT_CANCEL", title := "Cancel Flight",
    description := "Cease operations for this flight.",
    action_type := "CANCEL", risk_level := "HIGH",
    payload := { flight_id := fl.fid },
    reasoning := "Last resort to prevent cascading failures." }

/-- The always-added OPT_DELAY_MANUAL option (no minutes in its payload). -/
def manualOption (fl : MainFlight) : RemOption :=
  { oid := "OPT_DELAY_MANUAL", title := "Custom Delay",
    description := "Manually set delay duration.",
    action_type := "DELAY_MANUAL", risk_level := "VARIES",
    payload := { flight_id := fl.fid },
    reasoning := "Operator discretion for non-standard situations." }

/-- The operational/environmental keyword test of branch 2 of the heal
endpoint (all seven keywords, case-sensitive, over the combined reason). -/
def weatherKeywordHit (s : String) : Bool :=
  strContains s "Fog" || strContains s "Weather" || strContains s "Technical" ||
  strContains s "Hydraulic" || strContains s "ATC" || strContains s "Thunderstorm" ||
  strContains s "Storm"

/-- The option list built by the heal endpoint before CO2 annotation,
with the three mutually exclusive classification branches in source
order: Sick, then operational/environmental, then FDTL, else no options.
The weather-branch fallback checks read the combined reason; the
FDTL-branch fallback checks read the reason variable (source lines
591-619), and in the FDTL branch the Hydraulic keyword is not checked
for the repair fallback. -/
def genOptionsRaw (fl : MainFlight) (pilots : List MainPilot)
    (flights : List MainFlight) (now : Int) : List RemOption :=
  if strContains (combined_reason fl) "Sick" then
    (replacementCandidates fl pilots).map (mkAssignOption fl)
  else if weatherKeywordHit (combined_reason fl) then
    (swapCandidates fl flights now).map (mkSwapFlightOption fl) ++
    (if strContains (combined_reason fl) "Weather" ||
        strContains (combined_reason fl) "Fog" then [holdOption fl]
     else if strContains (combined_reason fl) "Technical" ||
        strContains (combined_reason fl) "Hydraulic" then [fixOption fl]
     else if strContains (combined_reason fl) "ATC" then [atcOption fl]
     else []) ++
    [cancelOption fl, manualOption fl]
  else if strContains (combined_reason fl) "FDTL" then
    (replacementCandidates fl pilots).map (mkAssignOptionFdtl fl) ++
    (swapCandidates fl flights now).map (mkSwapFlightOption fl) ++
    (if strContains (reasonOf fl) "Weather" ||
        strContains (reasonOf fl) "Fog" then [holdOption fl]
     else if strContains (reasonOf fl) "Technical" then [fixOption fl]
     else if strContains (reasonOf fl) "ATC" then [atcOption fl]
     else []) ++
    [cancelOption fl, manualOption fl]
  else []

/-- The environmental impact mass (kg CO2) derived from an option by the
annotation loop of the heal endpoint. -/
def impactOfOption (o : RemOption) : Int :=
  if o.action_type == "CANCEL" then 120
  else if o.action_type == "DELAY_APPLY" then (o.payload.minutes.getD 60) * 10
  else if o.action_type == "SWAP_FLIGHT" then 50
  else if o.action_type == "ASSIGN" then 80
  else 0

/-- One step of the CO2 annotation loop: writes the co2_impact fields. -/
def addCO2 (o : RemOption) : RemOption :=
  let impact := impactOfOption o
  { o with
    co2_value := "+" ++ toString impact ++ "kg CO2",
    co2_score := if impact > 200 then "HIGH" else if impact > 100 then "MEDIUM" else "LOW",
    co2_color := if impact > 200 then "red" else if impact > 100 then "orange" else "green" }

/-- The full option list the heal endpoint holds after generation and CO2
annotation; this is the list the recommendation loops run over. -/
def genOptions (fl : MainFlight) (pilots : List MainPilot)
    (flights : List MainFlight) (now : Int) : List RemOption :=
  (genOptionsRaw fl pilots flights now).map addCO2

/-- The best_option selection of the heal endpoint: the first option
whose id starts with OPT_SWAP_FLIGHT or equals OPT_SWAP; otherwise the
first OPT_HOLD or OPT_FIX option; otherwise the first option, if any. -/
def selectBest (options : List RemOption) : Option RemOption :=
  match options.find? (fun o =>
      strStartsWith o.oid "OPT_SWAP_FLIGHT" || o.oid == "OPT_SWAP") with
  | some b => some b
  | none =>
    match options.find? (fun o => o.oid == "OPT_HOLD" || o.oid == "OPT_FIX") with
    | some b => some b
    | none => options.head?

/-! ## main.py : resolve -/

/-- The $set written to the source flight of a SWAP_FLIGHT resolution:
it adopts the target schedule, pilot and flight number, becomes SWAPPED
with its delay cleared, and records the swap note. -/
def swapSourceUpdate (source target : MainFlight) (f : MainFlight) : MainFlight :=
  { f with status := "SWAPPED", delayMinutes := 0, delayReason := none,
           predictedFailure := false,
           assignedPilotId := target.assignedPilotId,
           Pilot_Name := target.Pilot_Name,
           scheduledDeparture := target.scheduledDeparture,
           scheduledArrival := target.scheduledArrival,
           flightNumber := target.flightNumber,
           manual_swap_note := some ("Swapped with " ++ source.flightNumber) }

/-- The $set written to the target (donor) flight of a SWAP_FLIGHT
resolution: it adopts the source schedule, pilot and flight number,
becomes SWAPPED, and inherits the source delay minutes (field always
present, .get default 120) with a prefixed delay reason (a stored None
renders as the text None inside the f-string). -/
def swapTargetUpdate (fid : String) (source : MainFlight) (f : MainFlight) : MainFlight :=
  { f with status := "SWAPPED", delayMinutes := source.delayMinutes,
           delayReason := some ("Swapped w/ " ++ fid ++ ": " ++
             source.delayReason.getD "None"),
           predictedFailure := false,
           assignedPilotId := source.assignedPilotId,
           Pilot_Name := source.Pilot_Name,
           scheduledDeparture := source.scheduledDeparture,
           scheduledArrival := source.scheduledArrival,
           flightNumber := source.flightNumber }

/-- The resolve endpoint applied to a store snapshot. The if/elif chain on
the action type is rendered as a first-match dispatch. The returned value
is none when the Python handler would raise an uncaught exception (a
missing pilot_id key or a pilot lookup returning None in the ASSIGN
branch, a missing target_flight_id key in the SWAP_FLIGHT branch), and
some (newFlights, "RESOLVED") otherwise, mirroring the unconditional
final return. update_one touches the first matching document only and a
non-matching filter is a silent no-op. In the SWAP_FLIGHT branch both
documents are read before either update. -/
def resolve (flights : List MainFlight) (pilots : List MainPilot) (opt : RemOption) :
    Option (List MainFlight × String) :=
  match opt.action_type with
  | "CANCEL" =>
    some (updateFirst (fun f => f.fid == opt.payload.flight_id)
      (fun f => { f with status := "CANCELLED" }) flights, "RESOLVED")
  | "ASSIGN" =>
    match opt.payload.pilot_id with
    | none => none
    | some pid =>
      match pilots.find? (fun p => p.pid == pid) with
      | none => none
      | some pilot =>
        some (updateFirst (fun f => f.fid == opt.payload.flight_id)
          (fun f => { f with status := "SCHEDULED", assignedPilotId := pid,
                             Pilot_Name := pilot.name, predictedFailure := false })
          flights, "RESOLVED")
  | "DELAY_APPLY" =>
    some (updateFirst (fun f => f.fid == opt.payload.flight_id)
      (fun f => { f with status := "DELAYED", delayMinutes := opt.payload.minutes.getD 60,
                         delayReason := some opt.title, predictedFailure := false })
      flights, "RESOLVED")
  | "DELAY_MANUAL" =>
    some (updateFirst (fun f => f.fid == opt.payload.flight_id)
      (fun f => { f with status := "DELAYED", delayMinutes := opt.payload.minutes.getD 60,
                         delayReason := some "Manual Operator Override",
                         predictedFailure := false })
      flights, "RESOLVED")
  | "SWAP_FLIGHT" =>
    match opt.payload.target_flight_id with
    | none => none
    | some target_id =>
      match flights.find? (fun f => f.fid == opt.payload.flight_id) with
      | none => some (flights, "RESOLVED")
      | some source =>
        match flights.find? (fun f => f.fid == target_id) with
        | none => some (flights, "RESOLVED")
        | some target =>
          some (updateFirst (fun f => f.fid == target_id)
            (swapTargetUpdate opt.payload.flight_id source)
            (updateFirst (fun f => f.fid == opt.payload.flight_id)
              (swapSourceUpdate source target) flights),
            "RESOLVED")
  | _ => some (flights, "RESOLVED")

/-- The flight-state invariant of the data model: a predicted failure is
only ever carried by a CRITICAL flight. -/
def flightInvariant (f : MainFlight) : Prop :=
  f.predictedFailure = true → f.status = "CRITICAL"

/-- A SWAP_FLIGHT option as consumed by the resolve endpoint (resolve
reads only the action type and the payload ids). -/
def swapResolveOption (s t : String) : RemOption :=
  { oid := "OPT_SWAP_FLIGHT_" ++ t, title := "Swap w/ Flight " ++ t,
    description := "", action_type := "SWAP_FLIGHT", risk_level := "LOW",
    payload := { flight_id := s, target_flight_id := some t },
    reasoning := "" }

/-! ## Concrete instances used by witnesses and counterexamples -/

/-- A pilot with fatigue score 0.85, the normalized value stored by the
seeding code (Fatigue_Score above 1.0 is divided by 100). -/
def pilot085 : AgentsPilot := ⟨"P1", mkRat 85 100, false⟩

/-- A pilot with fatigue score 85 on the raw 0-100 scale. -/
def pilot85 : AgentsPilot := ⟨"P1", 85, false⟩

/-- A rested pilot with fatigue score 40. -/
def pilot40 : AgentsPilot := ⟨"P2", 40, false⟩

/-- A plain day flight F1. -/
def flightF1 : AgentsFlight := ⟨"F1", false, 0⟩

/-- A plain day flight F2, unassigned in the healing scenarios. -/
def flightF2 : AgentsFlight := ⟨"F2", false, 0⟩

/-- A solver-side pilot carrying the stored normalized fatigue 0.85. -/
def solverPilot085 : SolverPilot := ⟨"P1", mkRat 85 100, false⟩

/-- A solver-side pilot with fatigue 50 and no prior night duty. -/
def solverPilot50 : SolverPilot := ⟨"P1", 50, false⟩

/-- A solver-side day flight. -/
def solverFlightDay : SolverFlight := ⟨"F1", false⟩

/-- A solver-side night flight. -/
def solverFlightNight : SolverFlight := ⟨"F1", true⟩

/-- The only candidate valuation over one pilot P1 and one flight F1:
exactly the pair variable x[P1, F1] is true. -/
def xSingle : String → String → Bool := fun p f => p == "P1" && f == "F1"

/-- A template main-store flight from DEL to BOM with the given id,
departure minute, status and reason fields. -/
def baseFlight (i : String) (dep : Int) (st : String) (pfr dr : Option String) : MainFlight :=
  { fid := i, flightNumber := i, origin := "DEL", destination := "BOM",
    scheduledDeparture := dep, scheduledArrival := dep + 120,
    flightDurationMinutes := some 120, status := st, delayMinutes := 0,
    delayReason := dr, assignedPilotId := "P1", Pilot_Name := "Pilot P1",
    boardingAllowed := true, predictedFailure := false,
    predictedFailureProbability := 0, predictedFailureReason := pfr,
    manual_swap_note := none }

/-- A fog-disrupted flight as written by the simulate endpoint. -/
def fogFlight : MainFlight :=
  baseFlight "F1" 50 "CRITICAL" (some "Heavy Fog") (some "Heavy Fog")

/-- The fog flight with its predicted-failure flag raised, satisfying the
flight-state invariant. -/
def flightCritical : MainFlight := { fogFlight with predictedFailure := true }

/-- A flight whose reason text carries the lower-case word sick only. -/
def sickLowerFlight : MainFlight :=
  baseFlight "F1" 50 "CRITICAL" none (some "pilot reported sick")

/-- A flight marked by calculate_impact with the sickness reason (which
contains the capitalized keyword Sick). -/
def sickProperFlight : MainFlight :=
  baseFlight "F1" 50 "CRITICAL" (some "Pilot Incapacitated (Sick)") none

/-- A flight flagged with the FDTL exhaustion reason. -/
def fdtlFlight : MainFlight :=
  baseFlight "F1" 50 "CRITICAL" (some "Maximum FDTL Exceeded") none

/-- Swap candidates from DEL departing at minutes 100, 60 and 90. -/
def candC1 : MainFlight := baseFlight "C1" 100 "ON_TIME" none none

/-- Swap candidate departing at minute 60, the soonest. -/
def candC2 : MainFlight := baseFlight "C2" 60 "ON_TIME" none none

/-- Swap candidate departing at minute 90. -/
def candC3 : MainFlight := baseFlight "C3" 90 "ON_TIME" none none

/-- An available reserve pilot based at DEL, zero duty and zero fatigue. -/
def pilotAvail : MainPilot :=
  { pid := "P9", name := "Reserve", base := "DEL", currentDutyMinutes := 0,
    maxLegalDutyMinutes := 480, fatigue_score := 0, status := "AVAILABLE" }

/-- An available reserve pilot whose document id begins with FLIGHT. -/
def pilotFlightId : MainPilot := { pilotAvail with pid := "FLIGHT1", name := "Odd" }

/-- A pilot four hundred minutes into a 480-minute duty ceiling. -/
def impactPilot : MainPilot :=
  { pid := "P1", name := "Tired", base := "DEL", currentDutyMinutes := 400,
    maxLegalDutyMinutes := 480, fatigue_score := 0, status := "AVAILABLE" }

/-- An on-time flight assigned to impactPilot before impact calculation. -/
def impactFlight : MainFlight := baseFlight "F1" 50 "ON_TIME" none none

/-- The record calculate_impact writes for impactFlight: the projected
duty 400 + 120 + 0 exceeds 480, so the flight is marked CRITICAL. -/
def impactResult : MainFlight :=
  { impactFlight with
      predictedFailure := true,
      predictedFailureProbability := mkRat 95 100,
      predictedFailureReason := some "Maximum FDTL Exceeded",
      boardingAllowed := false, status := "CRITICAL" }

/-- The store produced by applying the custom-delay option to the
critical fog flight. -/
def resolvedManual : List MainFlight × String :=
  ([{ flightCritical with
        status := "DELAYED", delayMinutes := 60,
        delayReason := some "Manual Operator Override", predictedFailure := false }],
   "RESOLVED")

/-- Swap witness flight A, delayed by fog. -/
def swapA : MainFlight :=
  { baseFlight "A" 10 "CRITICAL" (some "Heavy Fog") (some "Heavy Fog") with
    delayMinutes := 240 }

/-- Swap witness flight B, a healthy donor with its own pilot. -/
def swapB : MainFlight :=
  { baseFlight "B" 200 "ON_TIME" none none with
    assignedPilotId := "P2", Pilot_Name := "Pilot P2" }

/-! ## Helper lemmas about the container models -/

theorem mem_insertStable {le : α → α → Bool} {a x : α} {l : List α} :
    x ∈ insertStable le a l ↔ x = a ∨ x ∈ l := by
  induction l with
  | nil => simp [insertStable]
  | cons b bs ih =>
    simp only [insertStable]
    split
    · simp [ih, List.mem_cons]; tauto
    · simp [List.mem_cons]

theorem mem_sortStable {le : α → α → Bool} {x : α} {l : List α} :
    x ∈ sortStable le l ↔ x ∈ l := by
  suffices h : ∀ (l : List α) (acc : List α),
      x ∈ l.foldl (fun acc a => insertStable le a acc) acc ↔ x ∈ acc ∨ x ∈ l by
    simpa [sortStable] using h l []
  intro l
  induction l with
  | nil => simp
  | cons b bs ih =>
    intro acc
    simp only [List.foldl_cons, ih, mem_insertStable, List.mem_cons]
    tauto

theorem mem_dictInsert {key : α → String} {acc : List α} {a x : α}
    (h : x ∈ dictInsert key acc a) : x ∈ acc ∨ x = a := by
  unfold dictInsert at h
  split at h
  · rcases List.mem_map.mp h with ⟨b, hb, hx⟩
    by_cases hk : (key b == key a) = true
    · rw [if_pos hk] at hx
      exact Or.inr hx.symm
    · rw [if_neg hk] at hx
      exact Or.inl (hx ▸ hb)
  · rcases List.mem_append.mp h with h | h
    · exact Or.inl h
    · exact Or.inr (by simpa using h)

theorem mem_dictValues {key : α → String} {l : List α} {x : α}
    (h : x ∈ dictValues key l) : x ∈ l := by
  suffices haux : ∀ (l : List α) (acc : List α),
      x ∈ l.foldl (dictInsert key) acc → x ∈ acc ∨ x ∈ l by
    rcases haux l [] h with h' | h'
    · simp at h'
    · exact h'
  intro l
  induction l with
  | nil => intro acc h; simp at h; exact Or.inl h
  | cons b bs ih =>
    intro acc h
    rcases ih (dictInsert key acc b) h with h' | h'
    · rcases mem_dictInsert h' with h'' | h''
      · exact Or.inl h''
      · exact Or.inr (by simp [h''])
    · exact Or.inr (List.mem_cons_of_mem _ h')

theorem mem_updateFirst {p : α → Bool} {u : α → α} {l : List α} {x : α}
    (h : x ∈ updateFirst p u l) : x ∈ l ∨ ∃ y ∈ l, x = u y := by
  induction l with
  | nil => simp [updateFirst] at h
  | cons a as ih =>
    simp only [updateFirst] at h
    split at h
    · rcases List.mem_cons.mp h with h' | h'
      · exact Or.inr ⟨a, List.mem_cons_self a as, h'⟩
      · exact Or.inl (List.mem_cons_of_mem _ h')
    · rcases List.mem_cons.mp h with h' | h'
      · exact Or.inl (by simp [h'])
      · rcases ih h' with h'' | ⟨y, hy, hxy⟩
        · exact Or.inl (List.mem_cons_of_mem _ h'')
        · exact Or.inr ⟨y, List.mem_cons_of_mem _ hy, hxy⟩

theorem updateFirst_of_find?_none {p : α → Bool} {u : α → α} {l : List α}
    (h : l.find? p = none) : updateFirst p u l = l := by
  induction l with
  | nil => rfl
  | cons a as ih =>
    rw [List.find?_cons] at h
    simp only [updateFirst]
    split
    · simp_all
    · simp_all

theorem find?_congr_mem {p q : α → Bool} {l : List α}
    (h : ∀ x ∈ l, p x = q x) : l.find? p = l.find? q := by
  induction l with
  | nil => rfl
  | cons a as ih =>
    have ha := h a (List.mem_cons_self a as)
    rw [List.find?_cons, List.find?_cons, ha]
    split
    · rfl
    · exact ih (fun x hx => h x (List.mem_cons_of_mem _ hx))

theorem listPrefix_append_same (xs a b : List Char) :
    listPrefix (xs ++ a) (xs ++ b) = listPrefix a b := by
  induction xs with
  | nil => rfl
  | cons c cs ih => simp [listPrefix, ih]

theorem listPrefix_self_append (xs ys : List Char) :
    listPrefix xs (xs ++ ys) = true := by
  induction xs with
  | nil => rfl
  | cons c cs ih => simp [listPrefix, ih]

theorem find?_updateFirst_key_ne (key : α → String) (u : α → α) {k k' : String}
    (hu : ∀ a, key (u a) = key a) (hne : k ≠ k') (l : List α) :
    (updateFirst (fun a => key a == k) u l).find? (fun a => key a == k') =
      l.find? (fun a => key a == k') := by
  induction l with
  | nil => rfl
  | cons a as ih =>
    by_cases hk : (key a == k) = true
    · have hak : key a = k := by simpa using hk
      have h1 : (key (u a) == k') = false := by simp [hu a, hak, hne]
      have h2 : (key a == k') = false := by simp [hak, hne]
      simp [updateFirst, hk, List.find?_cons, h1, h2]
    · by_cases hk2 : (key a == k') = true
      · simp [updateFirst, hk, List.find?_cons, hk2]
      · have hk2' : (key a == k') = false := by simpa using hk2
        simp [updateFirst, hk, List.find?_cons, hk2', ih]

theorem find?_updateFirst_key_self (key : α → String) (u : α → α) {k : String}
    (hu : ∀ a, key (u a) = key a) (l : List α) :
    (updateFirst (fun a => key a == k) u l).find? (fun a => key a == k) =
      (l.find? (fun a => key a == k)).map u := by
  induction l with
  | nil => rfl
  | cons a as ih =>
    by_cases hk : (key a == k) = true
    · have h1 : (key (u a) == k) = true := by rw [hu a]; exact hk
      simp [updateFirst, hk, List.find?_cons, h1]
    · have hk' : (key a == k) = false := by simpa using hk
      simp [updateFirst, hk', List.find?_cons, ih]

/-! ## Facts about the healing chain -/

theorem healOne_mem_valid {pd : List AgentsPilot} {f : AgentsFlight} {p : AgentsPilot}
    (h : healOne pd f = some p) :
    p ∈ pd ∧ safety_agent_validate p f = true := by
  unfold healOne at h
  have hmem := List.mem_of_find?_eq_some h
  have hpred := List.find?_some h
  rw [Bool.and_eq_true] at hpred
  exact ⟨mem_sortStable.mp (by simpa [sortedPilotsByFatigue] using hmem), hpred.2⟩

theorem safety_validate_fatigue_le {p : AgentsPilot} {f : AgentsFlight}
    (h : safety_agent_validate p f = true) : p.fatigue_score ≤ 80 := by
  unfold safety_agent_validate at h
  by_contra hgt
  push_neg at hgt
  rw [if_pos hgt] at h
  cases h

theorem foldl_healStep_mem {pilotD : List AgentsPilot} {flightD : List AgentsFlight} :
    ∀ (ids : List String) (acc : List (String × String)) (pr : String × String),
      pr ∈ ids.foldl (healStep pilotD flightD) acc →
      pr ∈ acc ∨ ∃ p ∈ pilotD, pr.2 = p.pid ∧ p.fatigue_score ≤ 80 := by
  intro ids
  induction ids with
  | nil => intro acc pr h; exact Or.inl (by simpa using h)
  | cons i is ih =>
    intro acc pr h
    rcases ih (healStep pilotD flightD acc i) pr (by simpa using h) with h' | h'
    · unfold healStep at h'
      split at h'
      · exact Or.inl h'
      · split at h'
        · rename_i p hh
          rcases mem_dictInsert h' with h'' | h''
          · exact Or.inl h''
          · rcases healOne_mem_valid hh with ⟨hpmem, hval⟩
            exact Or.inr ⟨p, hpmem, by simp [h''], safety_validate_fatigue_le hval⟩
        · exact Or.inl h'
    · exact Or.inr h'

/-- C2: in the fallback healing chain no pilot with fatigue score above 80
(the 0-100 scale that agents.py compares against) is ever committed as an
assignment; the stage-2 safety gatekeeper rejects any such pilot
independently of the stage-1 outcome. -/
theorem C2_fallback_healing_fatigue_cap :
    (∀ (p : AgentsPilot) (f : AgentsFlight), p.fatigue_score > 80 →
        safety_agent_validate p f = false) ∧
    (∀ (pilots : List AgentsPilot) (flights : List AgentsFlight) (ids : List String),
      ∀ pr ∈ run_healing pilots flights ids,
        ∃ p ∈ pilots, p.pid = pr.2 ∧ ¬ p.fatigue_score > 80) := by
  constructor
  · intro p f hgt
    unfold safety_agent_validate
    rw [if_pos hgt]
  · intro pilots flights ids pr h
    unfold run_healing at h
    rcases foldl_healStep_mem ids [] pr h with h' | ⟨p, hp, he, hle⟩
    · simp at h'
    · exact ⟨p, mem_dictValues hp, he.symm, not_lt.mpr hle⟩

/-- Witness for C2 at concrete inputs: the stage-2 gatekeeper rejects the
fatigue-85 pilot, and a concrete healed assignment goes to a pilot at or
below the cap. -/
theorem C2_fallback_healing_fatigue_cap_witness :
    safety_agent_validate pilot85 flightF2 = false ∧
    (∃ p ∈ [pilot40], p.pid = (("F2", "P2") : String × String).2 ∧
      ¬ p.fatigue_score > 80) :=
  ⟨C2_fallback_healing_fatigue_cap.1 pilot85 flightF2 (by decide),
   C2_fallback_healing_fatigue_cap.2 [pilot40] [flightF2] ["F2"] ("F2", "P2") (by decide)⟩

/-- C3 counterexample: a pilot with fatigue score 0.85 is not rejected by
the fallback chain; stage 1 returns a plain ACCEPT for it (0.85 is
compared against the literal 80) and run_healing commits the pilot to the
unassigned flight instead of proceeding past it. -/
theorem C3_fatigue085_not_rejected_counterexample :
    pilot_agent_decision pilot085 flightF2 = ("ACCEPT", "OK") ∧
    run_healing [pilot085] [flightF2] ["F2"] = [("F2", "P1")] := by
  constructor
  · decide
  · decide

/-- C3 amended: for a pilot with fatigue score 85 on the raw 0-100 scale
the stage-1 screen rejects the pilot for the unassigned flight with reason
Fatigue > 80, the pilot is never committed, and healing proceeds through
the other candidates (here the flight is assigned to the fatigue-40
pilot). -/
theorem C3_fatigue85_rejected :
    pilot_agent_decision pilot85 flightF2 = ("REJECT", "Fatigue > 80") ∧
    run_healing [pilot85, pilot40] [flightF2] ["F2"] = [("F2", "P2")] := by
  constructor
  · decide
  · decide

/-- C10: committing an assignment mutates neither the pilot pool nor the
per-pilot state, so a single eligible pilot is committed to every
unassigned flight of the same call: with flights F1 and F2 both unassigned
and only the fatigue-40 pilot available, run_healing assigns P2 to both. -/
theorem C10_single_pilot_assigned_to_all_flights :
    run_healing [pilot40] [flightF1, flightF2] ["F1", "F2"] =
      [("F1", "P2"), ("F2", "P2")] := by
  decide

/-- C1 counterexample: with one pilot whose stored fatigue score is the
normalized 0.85 and one day flight, the posted constraint set is satisfied
by the valuation assigning the pair (its fatigue constraint compares
against the literal 80, so 0.85 does not trigger it), the solver must
return this assignment as VALID (the exactly-one constraint forces it),
and the assigned fatigue exceeds 0.80 on the normalized scale — refuting
the claim that VALID mappings keep normalized fatigue at or below 0.80. -/
theorem C1_normalized_fatigue_counterexample :
    solverConstraintsHold [solverPilot085] [solverFlightDay] xSingle ∧
    xSingle "P1" "F1" = true ∧
    ¬ solverPilot085.fatigue_score ≤ mkRat 80 100 := by
  refine ⟨⟨?_, ?_, ?_⟩, rfl, by decide⟩
  · intro f hf
    simp only [List.mem_singleton] at hf
    subst hf
    decide
  · intro p hp f hf hgt
    simp only [List.mem_singleton] at hp
    subst hp
    exact absurd hgt (by decide)
  · intro p hp f hf hn
    simp only [List.mem_singleton] at hp
    subst hp
    exact absurd hn.1 (by decide)

/-- C1 amended: for every valuation satisfying the constraint set posted
by solve_roster_optimization (hence for every mapping returned with
status VALID), every assigned (pilot, flight) pair has a pilot whose raw
fatigue_score value is at most 80 — the literal the formulation compares
against, not 0.80 on the normalized scale — and is never a night-duty
flight paired with a pilot whose last_night_duty flag is set. -/
theorem C1_optimizer_hard_rules (pilots : List SolverPilot) (flights : List SolverFlight)
    (x : String → String → Bool) (h : solverConstraintsHold pilots flights x)
    (p : SolverPilot) (hp : p ∈ pilots) (f : SolverFlight) (hf : f ∈ flights)
    (hx : x p.pid f.fid = true) :
    p.fatigue_score ≤ 80 ∧ ¬ (p.last_night_duty = true ∧ f.is_night_duty = true) := by
  constructor
  · by_contra hgt
    push_neg at hgt
    have hforced := h.2.1 p hp f hf hgt
    rw [hforced] at hx
    cases hx
  · intro hn
    have hforced := h.2.2 p hp f hf hn
    rw [hforced] at hx
    cases hx

/-- Witness for C1 amended: a concrete satisfying valuation over one
fatigue-50 pilot and one night flight, with the conclusion instantiated. -/
theorem C1_optimizer_hard_rules_witness :
    solverConstraintsHold [solverPilot50] [solverFlightNight] xSingle ∧
    xSingle "P1" "F1" = true ∧
    (solverPilot50.fatigue_score ≤ 80 ∧
      ¬ (solverPilot50.last_night_duty = true ∧ solverFlightNight.is_night_duty = true)) := by
  have hCons : solverConstraintsHold [solverPilot50] [solverFlightNight] xSingle := by
    refine ⟨?_, ?_, ?_⟩
    · intro f hf
      simp only [List.mem_singleton] at hf
      subst hf
      decide
    · intro p hp f hf hgt
      simp only [List.mem_singleton] at hp
      subst hp
      exact absurd hgt (by decide)
    · intro p hp f hf hn
      simp only [List.mem_singleton] at hp
      subst hp
      exact absurd hn.1 (by decide)
  exact ⟨hCons, rfl,
    C1_optimizer_hard_rules [solverPilot50] [solverFlightNight] xSingle hCons
      solverPilot50 (List.mem_singleton_self _) solverFlightNight
      (List.mem_singleton_self _) rfl⟩

/-! ## Facts about calculate_impact and resolve -/

theorem flightInvariant_of_pf_false {f : MainFlight}
    (h : f.predictedFailure = false) : flightInvariant f := by
  intro hpf
  rw [h] at hpf
  exact absurd hpf (by decide)

/-- C4 counterexample: applying an approved CANCEL option to a flight
carrying predictedFailure = true leaves the flag raised while the status
becomes CANCELLED, so the resolution applier does not preserve the
invariant on its CANCEL branch. -/
theorem C4_cancel_breaks_invariant_counterexample :
    (resolve [flightCritical] [] (cancelOption fogFlight)).map
        (fun r => r.1.map (fun f => (f.predictedFailure, f.status))) =
      some [(true, "CANCELLED")] := by
  decide

/-- C4 amended: the impact calculation establishes the invariant that a
predicted failure implies CRITICAL status on every record it writes, and
every resolution branch other than CANCEL preserves the invariant across
the store (ASSIGN, DELAY_APPLY, DELAY_MANUAL and SWAP_FLIGHT all clear
predictedFailure on the documents they touch); the CANCEL branch does not
touch the flag and can leave a CANCELLED flight with predictedFailure
still true. -/
theorem C4_invariant_established_and_preserved :
    (∀ (fs : List MainFlight) (ps : List MainPilot) (fid : String),
      ∀ f ∈ calculate_impact fs ps fid, f ∈ fs ∨ flightInvariant f) ∧
    (∀ (fs : List MainFlight) (ps : List MainPilot) (opt : RemOption)
        (res : List MainFlight × String),
      opt.action_type ≠ "CANCEL" → resolve fs ps opt = some res →
      (∀ f ∈ fs, flightInvariant f) → ∀ f ∈ res.1, flightInvariant f) := by
  constructor
  · intro fs ps fid f hf
    unfold calculate_impact at hf
    split at hf
    · exact Or.inl hf
    · split at hf
      · exact Or.inl hf
      · rcases mem_updateFirst hf with h | ⟨y, hy, hEq⟩
        · exact Or.inl h
        · right
          subst hEq
          simp only [flightInvariant]
          split
          · intro _
            rfl
          · rename_i hviol
            intro hpf
            exact absurd hpf hviol
  · intro fs ps opt res hne hres hinv f hf
    unfold resolve at hres
    split at hres
    · exact absurd (by assumption) hne
    · -- ASSIGN
      split at hres
      · cases hres
      · split at hres
        · cases hres
        · injection hres with h
          subst h
          rcases mem_updateFirst hf with h | ⟨y, hy, hEq⟩
          · exact hinv f h
          · subst hEq
            exact flightInvariant_of_pf_false rfl
    · -- DELAY_APPLY
      injection hres with h
      subst h
      rcases mem_updateFirst hf with h | ⟨y, hy, hEq⟩
      · exact hinv f h
      · subst hEq
        exact flightInvariant_of_pf_false rfl
    · -- DELAY_MANUAL
      injection hres with h
      subst h
      rcases mem_updateFirst hf with h | ⟨y, hy, hEq⟩
      · exact hinv f h
      · subst hEq
        exact flightInvariant_of_pf_false rfl
    · -- SWAP_FLIGHT
      split at hres
      · cases hres
      · split at hres
        · injection hres with h
          subst h
          exact hinv f hf
        · split at hres
          · injection hres with h
            subst h
            exact hinv f hf
          · injection hres with h
            subst h
            rcases mem_updateFirst hf with h | ⟨y, hy, hEq⟩
            · rcases mem_updateFirst h with h' | ⟨z, hz, hEq'⟩
              · exact hinv f h'
              · subst hEq'
                exact flightInvariant_of_pf_false rfl
            · subst hEq
              exact flightInvariant_of_pf_false rfl
    · -- other action types
      injection hres with h
      subst h
      exact hinv f hf

/-- Witness for C4 amended at concrete inputs: the record written by a
concrete impact calculation satisfies the invariant, and a concrete
custom-delay resolution preserves it across the store. -/
theorem C4_invariant_established_and_preserved_witness :
    (impactResult ∈ calculate_impact [impactFlight] [impactPilot] "F1" ∧
      (impactResult ∈ [impactFlight] ∨ flightInvariant impactResult)) ∧
    ((manualOption fogFlight).action_type ≠ "CANCEL" ∧
      resolve [flightCritical] [] (manualOption fogFlight) = some resolvedManual ∧
      (∀ f ∈ [flightCritical], flightInvariant f) ∧
      ∀ f ∈ resolvedManual.1, flightInvariant f) := by
  have h1 : impactResult ∈ calculate_impact [impactFlight] [impactPilot] "F1" := by
    decide
  have h2 : (manualOption fogFlight).action_type ≠ "CANCEL" := by decide
  have h3 : resolve [flightCritical] [] (manualOption fogFlight) = some resolvedManual := by
    decide
  have h4 : ∀ f ∈ [flightCritical], flightInvariant f := by
    intro f hf
    simp only [List.mem_singleton] at hf
    subst hf
    intro _
    rfl
  exact ⟨⟨h1, C4_invariant_established_and_preserved.1 [impactFlight] [impactPilot] "F1"
      impactResult h1⟩,
    ⟨h2, h3, h4, C4_invariant_established_and_preserved.2 [flightCritical] []
      (manualOption fogFlight) resolvedManual h2 h3 h4⟩⟩

theorem resolve_swap_eq (fs : List MainFlight) (ps : List MainPilot)
    (s t : String) (a b : MainFlight)
    (hs : fs.find? (fun f => f.fid == s) = some a)
    (ht : fs.find? (fun f => f.fid == t) = some b) :
    resolve fs ps (swapResolveOption s t) =
      some (updateFirst (fun f => f.fid == t) (swapTargetUpdate s a)
        (updateFirst (fun f => f.fid == s) (swapSourceUpdate a b) fs), "RESOLVED") := by
  have e : resolve fs ps (swapResolveOption s t) =
      (match fs.find? (fun f => f.fid == s) with
       | none => some (fs, "RESOLVED")
       | some source =>
         match fs.find? (fun f => f.fid == t) with
         | none => some (fs, "RESOLVED")
         | some target =>
           some (updateFirst (fun f => f.fid == t) (swapTargetUpdate s source)
             (updateFirst (fun f => f.fid == s) (swapSourceUpdate source target) fs),
             "RESOLVED")) := rfl
  rw [e, hs, ht]

/-- C5: applying a SWAP_FLIGHT resolution to flights A and B and then a
second SWAP_FLIGHT resolution with the inverse payload restores each
flight's original scheduled departure, scheduled arrival, assigned pilot
and flight number. -/
theorem C5_swap_involution (fs : List MainFlight) (ps : List MainPilot)
    (A B : String) (a b : MainFlight)
    (hA : fs.find? (fun f => f.fid == A) = some a)
    (hB : fs.find? (fun f => f.fid == B) = some b)
    (hne : A ≠ B) :
    ∃ fs1 fs2,
      resolve fs ps (swapResolveOption A B) = some (fs1, "RESOLVED") ∧
      resolve fs1 ps (swapResolveOption B A) = some (fs2, "RESOLVED") ∧
      ∃ a2 b2,
        fs2.find? (fun f => f.fid == A) = some a2 ∧
        fs2.find? (fun f => f.fid == B) = some b2 ∧
        a2.scheduledDeparture = a.scheduledDeparture ∧
        a2.scheduledArrival = a.scheduledArrival ∧
        a2.assignedPilotId = a.assignedPilotId ∧
        a2.flightNumber = a.flightNumber ∧
        b2.scheduledDeparture = b.scheduledDeparture ∧
        b2.scheduledArrival = b.scheduledArrival ∧
        b2.assignedPilotId = b.assignedPilotId ∧
        b2.flightNumber = b.flightNumber := by
  have h1 := resolve_swap_eq fs ps A B a b hA hB
  have hA1 : (updateFirst (fun f => f.fid == B) (swapTargetUpdate A a)
      (updateFirst (fun f => f.fid == A) (swapSourceUpdate a b) fs)).find?
        (fun f => f.fid == A) = some (swapSourceUpdate a b a) := by
    rw [find?_updateFirst_key_ne MainFlight.fid (swapTargetUpdate A a)
          (fun f => rfl) (Ne.symm hne),
        find?_updateFirst_key_self MainFlight.fid (swapSourceUpdate a b)
          (fun f => rfl), hA]
    rfl
  have hB1 : (updateFirst (fun f => f.fid == B) (swapTargetUpdate A a)
      (updateFirst (fun f => f.fid == A) (swapSourceUpdate a b) fs)).find?
        (fun f => f.fid == B) = some (swapTargetUpdate A a b) := by
    rw [find?_updateFirst_key_self MainFlight.fid (swapTargetUpdate A a) (fun f => rfl),
        find?_updateFirst_key_ne MainFlight.fid (swapSourceUpdate a b)
          (fun f => rfl) hne, hB]
    rfl
  have h2 := resolve_swap_eq
    (updateFirst (fun f => f.fid == B) (swapTargetUpdate A a)
      (updateFirst (fun f => f.fid == A) (swapSourceUpdate a b) fs))
    ps B A (swapTargetUpdate A a b) (swapSourceUpdate a b a) hB1 hA1
  have hA2 : (updateFirst (fun f => f.fid == A)
      (swapTargetUpdate B (swapTargetUpdate A a b))
      (updateFirst (fun f => f.fid == B)
        (swapSourceUpdate (swapTargetUpdate A a b) (swapSourceUpdate a b a))
        (updateFirst (fun f => f.fid == B) (swapTargetUpdate A a)
          (updateFirst (fun f => f.fid == A) (swapSourceUpdate a b) fs)))).find?
        (fun f => f.fid == A) =
      some (swapTargetUpdate B (swapTargetUpdate A a b) (swapSourceUpdate a b a)) := by
    rw [find?_updateFirst_key_self MainFlight.fid
          (swapTargetUpdate B (swapTargetUpdate A a b)) (fun f => rfl),
        find?_updateFirst_key_ne MainFlight.fid
          (swapSourceUpdate (swapTargetUpdate A a b) (swapSourceUpdate a b a))
          (fun f => rfl) (Ne.symm hne), hA1]
    rfl
  have hB2 : (updateFirst (fun f => f.fid == A)
      (swapTargetUpdate B (swapTargetUpdate A a b))
      (updateFirst (fun f => f.fid == B)
        (swapSourceUpdate (swapTargetUpdate A a b) (swapSourceUpdate a b a))
        (updateFirst (fun f => f.fid == B) (swapTargetUpdate A a)
          (updateFirst (fun f => f.fid == A) (swapSourceUpdate a b) fs)))).find?
        (fun f => f.fid == B) =
      some (swapSourceUpdate (swapTargetUpdate A a b) (swapSourceUpdate a b a)
        (swapTargetUpdate A a b)) := by
    rw [find?_updateFirst_key_ne MainFlight.fid
          (swapTargetUpdate B (swapTargetUpdate A a b)) (fun f => rfl) hne,
        find?_updateFirst_key_self MainFlight.fid
          (swapSourceUpdate (swapTargetUpdate A a b) (swapSourceUpdate a b a))
          (fun f => rfl), hB1]
    rfl
  exact ⟨_, _, h1, h2,
    swapTargetUpdate B (swapTargetUpdate A a b) (swapSourceUpdate a b a),
    swapSourceUpdate (swapTargetUpdate A a b) (swapSourceUpdate a b a)
      (swapTargetUpdate A a b),
    hA2, hB2, rfl, rfl, rfl, rfl, rfl, rfl, rfl, rfl⟩

/-- Witness for C5 at a concrete two-flight store: swapping A with B and
back restores the original schedules, pilots and flight numbers. -/
theorem C5_swap_involution_witness :
    ([swapA, swapB].find? (fun f => f.fid == "A") = some swapA) ∧
    ([swapA, swapB].find? (fun f => f.fid == "B") = some swapB) ∧
    ("A" : String) ≠ "B" ∧
    (∃ fs1 fs2,
      resolve [swapA, swapB] [] (swapResolveOption "A" "B") = some (fs1, "RESOLVED") ∧
      resolve fs1 [] (swapResolveOption "B" "A") = some (fs2, "RESOLVED") ∧
      ∃ a2 b2,
        fs2.find? (fun f => f.fid == "A") = some a2 ∧
        fs2.find? (fun f => f.fid == "B") = some b2 ∧
        a2.scheduledDeparture = swapA.scheduledDeparture ∧
        a2.scheduledArrival = swapA.scheduledArrival ∧
        a2.assignedPilotId = swapA.assignedPilotId ∧
        a2.flightNumber = swapA.flightNumber ∧
        b2.scheduledDeparture = swapB.scheduledDeparture ∧
        b2.scheduledArrival = swapB.scheduledArrival ∧
        b2.assignedPilotId = swapB.assignedPilotId ∧
        b2.flightNumber = swapB.flightNumber) := by
  have h1 : [swapA, swapB].find? (fun f => f.fid == "A") = some swapA := by decide
  have h2 : [swapA, swapB].find? (fun f => f.fid == "B") = some swapB := by decide
  have h3 : ("A" : String) ≠ "B" := by decide
  exact ⟨h1, h2, h3, C5_swap_involution [swapA, swapB] [] "A" "B" swapA swapB h1 h2 h3⟩

/-- C6 counterexample: an approved CANCEL option whose payload references
a flight id absent from the store completes silently: the applier returns
its unconditional RESOLVED status and the store is untouched, instead of
failing the application and reporting not found. -/
theorem C6_missing_reference_counterexample :
    resolve [] [] (cancelOption fogFlight) = some ([], "RESOLVED") := by
  decide

/-- C6 amended: when the referenced flight id is absent from the store at
apply-time the resolution applier never partially mutates state, but it
does not report not found: it either completes silently as a no-op with
the unchanged store and status RESOLVED, or (ASSIGN with a missing pilot
reference) dies with an unhandled error before any mutation. -/
theorem C6_missing_reference_no_mutation (fs : List MainFlight) (ps : List MainPilot)
    (opt : RemOption)
    (h : fs.find? (fun f => f.fid == opt.payload.flight_id) = none) :
    resolve fs ps opt = some (fs, "RESOLVED") ∨ resolve fs ps opt = none := by
  unfold resolve
  split
  · exact Or.inl (by rw [updateFirst_of_find?_none h])
  · split
    · exact Or.inr rfl
    · split
      · exact Or.inr rfl
      · exact Or.inl (by rw [updateFirst_of_find?_none h])
  · exact Or.inl (by rw [updateFirst_of_find?_none h])
  · exact Or.inl (by rw [updateFirst_of_find?_none h])
  · split
    · exact Or.inr rfl
    · rw [h]
      exact Or.inl rfl
  · exact Or.inl rfl

/-- Witness for C6 amended: cancelling flight F1 against a store that
holds only flight C1 is a silent no-op. -/
theorem C6_missing_reference_no_mutation_witness :
    ([candC1].find? (fun f => f.fid == (cancelOption fogFlight).payload.flight_id) = none) ∧
    (resolve [candC1] [] (cancelOption fogFlight) = some ([candC1], "RESOLVED") ∨
      resolve [candC1] [] (cancelOption fogFlight) = none) := by
  have h : [candC1].find? (fun f => f.fid == (cancelOption fogFlight).payload.flight_id) =
      none := by decide
  exact ⟨h, C6_missing_reference_no_mutation [candC1] [] (cancelOption fogFlight) h⟩

/-! ## Facts about option generation and ranking -/

/-- C7 counterexample: the crew-incapacitation keyword matching is
case-sensitive on the capitalized token Sick; a combined reason containing
only the lower-case word sick matches no branch, so no option at all is
generated even though an eligible replacement candidate exists, refuting
the claim that a reason containing sick yields one ASSIGN option per
candidate. -/
theorem C7_lowercase_sick_counterexample :
    strContains (combined_reason sickLowerFlight) "sick" = true ∧
    (replacementCandidates sickLowerFlight [pilotAvail]).length = 1 ∧
    genOptions sickLowerFlight [pilotAvail] [sickLowerFlight] 0 = [] := by
  refine ⟨by decide, by decide, by decide⟩

/-- C7 amended: when the combined reason text contains the capitalized
keyword Sick, the generated options are exactly one ASSIGN option per
replacement candidate (pilots with status AVAILABLE, duty minutes below
300, based at the flight origin, sorted ascending by fatigue, at most 3),
and in particular no SWAP_FLIGHT or DELAY_APPLY option is ever present. -/
theorem C7_sick_only_assign_options (fl : MainFlight) (pilots : List MainPilot)
    (flights : List MainFlight) (now : Int)
    (h : strContains (combined_reason fl) "Sick" = true) :
    genOptions fl pilots flights now =
      (replacementCandidates fl pilots).map (fun r => addCO2 (mkAssignOption fl r)) ∧
    (∀ o ∈ genOptions fl pilots flights now, o.action_type = "ASSIGN") ∧
    (genOptions fl pilots flights now).length ≤ 3 := by
  have hraw : genOptionsRaw fl pilots flights now =
      (replacementCandidates fl pilots).map (mkAssignOption fl) := by
    unfold genOptionsRaw
    simp [h]
  refine ⟨?_, ?_, ?_⟩
  · unfold genOptions
    rw [hraw, List.map_map]
    rfl
  · intro o ho
    unfold genOptions at ho
    rw [hraw] at ho
    rcases List.mem_map.mp ho with ⟨r, hr, hor⟩
    rcases List.mem_map.mp hr with ⟨p, hp, hrp⟩
    subst hor
    subst hrp
    rfl
  · unfold genOptions
    rw [hraw]
    simp only [List.length_map]
    unfold replacementCandidates
    exact List.length_take_le 3 _

/-- Witness for C7 amended: the sickness flight written by the impact
calculation, one available reserve. -/
theorem C7_sick_only_assign_options_witness :
    strContains (combined_reason sickProperFlight) "Sick" = true ∧
    (genOptions sickProperFlight [pilotAvail] [sickProperFlight] 0 =
      (replacementCandidates sickProperFlight [pilotAvail]).map
        (fun r => addCO2 (mkAssignOption sickProperFlight r)) ∧
    (∀ o ∈ genOptions sickProperFlight [pilotAvail] [sickProperFlight] 0,
      o.action_type = "ASSIGN") ∧
    (genOptions sickProperFlight [pilotAvail] [sickProperFlight] 0).length ≤ 3) := by
  have h : strContains (combined_reason sickProperFlight) "Sick" = true := by decide
  exact ⟨h, C7_sick_only_assign_options sickProperFlight [pilotAvail] [sickProperFlight] 0 h⟩

theorem genOptionsRaw_shape (fl : MainFlight) (pilots : List MainPilot)
    (flights : List MainFlight) (now : Int) :
    ∀ o ∈ genOptionsRaw fl pilots flights now,
      (o.action_type = "ASSIGN" ∧ ∃ p ∈ pilots, o.oid = "OPT_SWAP_" ++ p.pid ∧
        o.payload.minutes = none) ∨
      (o.action_type = "SWAP_FLIGHT" ∧ ∃ s, o.oid = "OPT_SWAP_FLIGHT_" ++ s) ∨
      (o.action_type = "DELAY_APPLY" ∧
        ((o.oid = "OPT_HOLD" ∧ o.payload.minutes = some 60) ∨
         (o.oid = "OPT_FIX" ∧ o.payload.minutes = some 45) ∨
         (o.oid = "OPT_DELAY_ATC" ∧ o.payload.minutes = some 90))) ∨
      (o.action_type = "CANCEL" ∧ o.oid = "OPT_CANCEL") ∨
      (o.action_type = "DELAY_MANUAL" ∧ o.oid = "OPT_DELAY_MANUAL") := by
  have hRepl : ∀ r ∈ replacementCandidates fl pilots, r ∈ pilots := by
    intro r hr
    unfold replacementCandidates at hr
    exact List.mem_of_mem_filter (mem_sortStable.mp (List.take_subset 3 _ hr))
  intro o ho
  unfold genOptionsRaw at ho
  split at ho
  · rcases List.mem_map.mp ho with ⟨r, hr, hor⟩
    subst hor
    exact Or.inl ⟨rfl, r, hRepl r hr, rfl, rfl⟩
  · split at ho
    · rcases List.mem_append.mp ho with h12 | hcm
      · rcases List.mem_append.mp h12 with hsw | hfb
        · rcases List.mem_map.mp hsw with ⟨c, hc, hoc⟩
          subst hoc
          exact Or.inr (Or.inl ⟨rfl, c.fid, rfl⟩)
        · refine Or.inr (Or.inr (Or.inl ?_))
          split at hfb
          · simp only [List.mem_singleton] at hfb
            subst hfb
            exact ⟨rfl, Or.inl ⟨rfl, rfl⟩⟩
          · split at hfb
            · simp only [List.mem_singleton] at hfb
              subst hfb
              exact ⟨rfl, Or.inr (Or.inl ⟨rfl, rfl⟩)⟩
            · split at hfb
              · simp only [List.mem_singleton] at hfb
                subst hfb
                exact ⟨rfl, Or.inr (Or.inr ⟨rfl, rfl⟩)⟩
              · simp at hfb
      · simp only [List.mem_cons, List.mem_singleton, List.not_mem_nil, or_false] at hcm
        rcases hcm with hoc | hoc
        · subst hoc
          exact Or.inr (Or.inr (Or.inr (Or.inl ⟨rfl, rfl⟩)))
        · subst hoc
          exact Or.inr (Or.inr (Or.inr (Or.inr ⟨rfl, rfl⟩)))
    · split at ho
      · rcases List.mem_append.mp ho with h123 | hcm
        · rcases List.mem_append.mp h123 with h12 | hfb
          · rcases List.mem_append.mp h12 with has | hsw
            · rcases List.mem_map.mp has with ⟨r, hr, hor⟩
              subst hor
              exact Or.inl ⟨rfl, r, hRepl r hr, rfl, rfl⟩
            · rcases List.mem_map.mp hsw with ⟨c, hc, hoc⟩
              subst hoc
              exact Or.inr (Or.inl ⟨rfl, c.fid, rfl⟩)
          · refine Or.inr (Or.inr (Or.inl ?_))
            split at hfb
            · simp only [List.mem_singleton] at hfb
              subst hfb
              exact ⟨rfl, Or.inl ⟨rfl, rfl⟩⟩
            · split at hfb
              · simp only [List.mem_singleton] at hfb
                subst hfb
                exact ⟨rfl, Or.inr (Or.inl ⟨rfl, rfl⟩)⟩
              · split at hfb
                · simp only [List.mem_singleton] at hfb
                  subst hfb
                  exact ⟨rfl, Or.inr (Or.inr ⟨rfl, rfl⟩)⟩
                · simp at hfb
        · simp only [List.mem_cons, List.mem_singleton, List.not_mem_nil,
            or_false] at hcm
          rcases hcm with hoc | hoc
          · subst hoc
            exact Or.inr (Or.inr (Or.inr (Or.inl ⟨rfl, rfl⟩)))
          · subst hoc
            exact Or.inr (Or.inr (Or.inr (Or.inr ⟨rfl, rfl⟩)))
      · simp at ho

theorem impactOfOption_addCO2 (r : RemOption) :
    impactOfOption (addCO2 r) = impactOfOption r := rfl

theorem co2_score_addCO2 (r : RemOption) :
    (addCO2 r).co2_score = (if impactOfOption r > 200 then "HIGH"
      else if impactOfOption r > 100 then "MEDIUM" else "LOW") := rfl

/-- C9: every generated option carries the action-type-derived CO2 mass
(CANCEL 120, DELAY_APPLY ten times its payload minutes, SWAP_FLIGHT 50,
ASSIGN 80) and its recorded band agrees with the banding LOW below 100,
MEDIUM from 100 to 200 inclusive, HIGH above 200 (no generated impact
hits the boundary value 100, where the strict comparison of the code
would diverge from the inclusive reading). -/
theorem C9_co2_impact_bands (fl : MainFlight) (pilots : List MainPilot)
    (flights : List MainFlight) (now : Int) :
    ∀ o ∈ genOptions fl pilots flights now,
      (o.action_type = "CANCEL" → impactOfOption o = 120) ∧
      (o.action_type = "DELAY_APPLY" →
        ∃ m, o.payload.minutes = some m ∧ impactOfOption o = m * 10) ∧
      (o.action_type = "SWAP_FLIGHT" → impactOfOption o = 50) ∧
      (o.action_type = "ASSIGN" → impactOfOption o = 80) ∧
      o.co2_score = (if impactOfOption o < 100 then "LOW"
        else if impactOfOption o ≤ 200 then "MEDIUM" else "HIGH") := by
  intro o ho
  unfold genOptions at ho
  rcases List.mem_map.mp ho with ⟨r, hr, hor⟩
  subst hor
  rcases genOptionsRaw_shape fl pilots flights now r hr with
    ⟨ha, p, hp, hoid, hmin⟩ | ⟨ha, s, hoid⟩ | ⟨ha, hsub⟩ | ⟨ha, hoid⟩ | ⟨ha, hoid⟩
  · have himp : impactOfOption r = 80 := by
      unfold impactOfOption
      rw [ha]
      simp
    refine ⟨?_, ?_, ?_, ?_, ?_⟩
    · intro hc
      rw [show (addCO2 r).action_type = r.action_type from rfl, ha] at hc
      exact absurd hc (by decide)
    · intro hc
      rw [show (addCO2 r).action_type = r.action_type from rfl, ha] at hc
      exact absurd hc (by decide)
    · intro hc
      rw [show (addCO2 r).action_type = r.action_type from rfl, ha] at hc
      exact absurd hc (by decide)
    · intro _
      rw [impactOfOption_addCO2, himp]
    · rw [co2_score_addCO2, impactOfOption_addCO2, himp]
      decide
  · have himp : impactOfOption r = 50 := by
      unfold impactOfOption
      rw [ha]
      simp
    refine ⟨?_, ?_, ?_, ?_, ?_⟩
    · intro hc
      rw [show (addCO2 r).action_type = r.action_type from rfl, ha] at hc
      exact absurd hc (by decide)
    · intro hc
      rw [show (addCO2 r).action_type = r.action_type from rfl, ha] at hc
      exact absurd hc (by decide)
    · intro _
      rw [impactOfOption_addCO2, himp]
    · intro hc
      rw [show (addCO2 r).action_type = r.action_type from rfl, ha] at hc
      exact absurd hc (by decide)
    · rw [co2_score_addCO2, impactOfOption_addCO2, himp]
      decide
  · rcases hsub with ⟨hoid, hmin⟩ | ⟨hoid, hmin⟩ | ⟨hoid, hmin⟩
    · have himp : impactOfOption r = 600 := by
        unfold impactOfOption
        rw [ha, hmin]
        decide
      refine ⟨?_, ?_, ?_, ?_, ?_⟩
      · intro hc
        rw [show (addCO2 r).action_type = r.action_type from rfl, ha] at hc
        exact absurd hc (by decide)
      · intro _
        refine ⟨60, ?_, ?_⟩
        · rw [show (addCO2 r).payload = r.payload from rfl, hmin]
        · rw [impactOfOption_addCO2, himp]
          decide
      · intro hc
        rw [show (addCO2 r).action_type = r.action_type from rfl, ha] at hc
        exact absurd hc (by decide)
      · intro hc
        rw [show (addCO2 r).action_type = r.action_type from rfl, ha] at hc
        exact absurd hc (by decide)
      · rw [co2_score_addCO2, impactOfOption_addCO2, himp]
        decide
    · have himp : impactOfOption r = 450 := by
        unfold impactOfOption
        rw [ha, hmin]
        decide
      refine ⟨?_, ?_, ?_, ?_, ?_⟩
      · intro hc
        rw [show (addCO2 r).action_type = r.action_type from rfl, ha] at hc
        exact absurd hc (by decide)
      · intro _
        refine ⟨45, ?_, ?_⟩
        · rw [show (addCO2 r).payload = r.payload from rfl, hmin]
        · rw [impactOfOption_addCO2, himp]
          decide
      · intro hc
        rw [show (addCO2 r).action_type = r.action_type from rfl, ha] at hc
        exact absurd hc (by decide)
      · intro hc
        rw [show (addCO2 r).action_type = r.action_type from rfl, ha] at hc
        exact absurd hc (by decide)
      · rw [co2_score_addCO2, impactOfOption_addCO2, himp]
        decide
    · have himp : impactOfOption r = 900 := by
        unfold impactOfOption
        rw [ha, hmin]
        decide
      refine ⟨?_, ?_, ?_, ?_, ?_⟩
      · intro hc
        rw [show (addCO2 r).action_type = r.action_type from rfl, ha] at hc
        exact absurd hc (by decide)
      · intro _
        refine ⟨90, ?_, ?_⟩
        · rw [show (addCO2 r).payload = r.payload from rfl, hmin]
        · rw [impactOfOption_addCO2, himp]
          decide
      · intro hc
        rw [show (addCO2 r).action_type = r.action_type from rfl, ha] at hc
        exact absurd hc (by decide)
      · intro hc
        rw [show (addCO2 r).action_type = r.action_type from rfl, ha] at hc
        exact absurd hc (by decide)
      · rw [co2_score_addCO2, impactOfOption_addCO2, himp]
        decide
  · have himp : impactOfOption r = 120 := by
      unfold impactOfOption
      rw [ha]
      simp
    refine ⟨?_, ?_, ?_, ?_, ?_⟩
    · intro _
      rw [impactOfOption_addCO2, himp]
    · intro hc
      rw [show (addCO2 r).action_type = r.action_type from rfl, ha] at hc
      exact absurd hc (by decide)
    · intro hc
      rw [show (addCO2 r).action_type = r.action_type from rfl, ha] at hc
      exact absurd hc (by decide)
    · intro hc
      rw [show (addCO2 r).action_type = r.action_type from rfl, ha] at hc
      exact absurd hc (by decide)
    · rw [co2_score_addCO2, impactOfOption_addCO2, himp]
      decide
  · have himp : impactOfOption r = 0 := by
      unfold impactOfOption
      rw [ha]
      simp
    refine ⟨?_, ?_, ?_, ?_, ?_⟩
    · intro hc
      rw [show (addCO2 r).action_type = r.action_type from rfl, ha] at hc
      exact absurd hc (by decide)
    · intro hc
      rw [show (addCO2 r).action_type = r.action_type from rfl, ha] at hc
      exact absurd hc (by decide)
    · intro hc
      rw [show (addCO2 r).action_type = r.action_type from rfl, ha] at hc
      exact absurd hc (by decide)
    · intro hc
      rw [show (addCO2 r).action_type = r.action_type from rfl, ha] at hc
      exact absurd hc (by decide)
    · rw [co2_score_addCO2, impactOfOption_addCO2, himp]
      decide

/-- Witness for C9 at the concrete CANCEL option of a fog scenario. -/
theorem C9_co2_impact_bands_witness :
    addCO2 (cancelOption fogFlight) ∈
      genOptions fogFlight [] [fogFlight, candC3, candC1, candC2] 0 ∧
    (((addCO2 (cancelOption fogFlight)).action_type = "CANCEL" →
        impactOfOption (addCO2 (cancelOption fogFlight)) = 120) ∧
      ((addCO2 (cancelOption fogFlight)).action_type = "DELAY_APPLY" →
        ∃ m, (addCO2 (cancelOption fogFlight)).payload.minutes = some m ∧
          impactOfOption (addCO2 (cancelOption fogFlight)) = m * 10) ∧
      ((addCO2 (cancelOption fogFlight)).action_type = "SWAP_FLIGHT" →
        impactOfOption (addCO2 (cancelOption fogFlight)) = 50) ∧
      ((addCO2 (cancelOption fogFlight)).action_type = "ASSIGN" →
        impactOfOption (addCO2 (cancelOption fogFlight)) = 80) ∧
      (addCO2 (cancelOption fogFlight)).co2_score =
        (if impactOfOption (addCO2 (cancelOption fogFlight)) < 100 then "LOW"
         else if impactOfOption (addCO2 (cancelOption fogFlight)) ≤ 200 then "MEDIUM"
         else "HIGH")) := by
  have hm : addCO2 (cancelOption fogFlight) ∈
      genOptions fogFlight [] [fogFlight, candC3, candC1, candC2] 0 := by decide
  exact ⟨hm, C9_co2_impact_bands fogFlight [] [fogFlight, candC3, candC1, candC2] 0
    (addCO2 (cancelOption fogFlight)) hm⟩

theorem genOptions_rank_pred (fl : MainFlight) (pilots : List MainPilot)
    (flights : List MainFlight) (now : Int)
    (hp : ∀ p ∈ pilots, strStartsWith p.pid "FLIGHT" = false) :
    ∀ o ∈ genOptions fl pilots flights now,
      (strStartsWith o.oid "OPT_SWAP_FLIGHT" || o.oid == "OPT_SWAP") =
        (o.action_type == "SWAP_FLIGHT") := by
  intro o ho
  unfold genOptions at ho
  rcases List.mem_map.mp ho with ⟨r, hr, hor⟩
  subst hor
  have hoid_eq : (addCO2 r).oid = r.oid := rfl
  have hact_eq : (addCO2 r).action_type = r.action_type := rfl
  rcases genOptionsRaw_shape fl pilots flights now r hr with
    ⟨ha, p, hpmem, hoid, _⟩ | ⟨ha, s, hoid⟩ | ⟨ha, hsub⟩ | ⟨ha, hoid⟩ | ⟨ha, hoid⟩
  · rw [hoid_eq, hact_eq, ha, hoid]
    have h1 : strStartsWith ("OPT_SWAP_" ++ p.pid) "OPT_SWAP_FLIGHT" = false := by
      have he : strStartsWith ("OPT_SWAP_" ++ p.pid) "OPT_SWAP_FLIGHT" =
          strStartsWith p.pid "FLIGHT" := by
        unfold strStartsWith
        rw [String.data_append, show ("OPT_SWAP_FLIGHT" : String).data =
          ("OPT_SWAP_" : String).data ++ ("FLIGHT" : String).data from by decide,
          listPrefix_append_same]
      rw [he]
      exact hp p hpmem
    have h2 : (("OPT_SWAP_" ++ p.pid : String) == "OPT_SWAP") = false := by
      apply beq_eq_false_iff_ne.mpr
      intro he
      have hd := congrArg String.data he
      rw [String.data_append] at hd
      have hlen := congrArg List.length hd
      rw [List.length_append] at hlen
      rw [show ("OPT_SWAP_" : String).data.length = 9 from by decide,
          show ("OPT_SWAP" : String).data.length = 8 from by decide] at hlen
      omega
    rw [h1, h2]
    decide
  · rw [hoid_eq, hact_eq, ha, hoid]
    have h1 : strStartsWith ("OPT_SWAP_FLIGHT_" ++ s) "OPT_SWAP_FLIGHT" = true := by
      unfold strStartsWith
      rw [String.data_append, show ("OPT_SWAP_FLIGHT_" : String).data =
        ("OPT_SWAP_FLIGHT" : String).data ++ ("_" : String).data from by decide,
        List.append_assoc, listPrefix_self_append]
    rw [h1, Bool.true_or]
    decide
  · rcases hsub with ⟨hoid, _⟩ | ⟨hoid, _⟩ | ⟨hoid, _⟩ <;>
      rw [hoid_eq, hact_eq, ha, hoid] <;> decide
  · rw [hoid_eq, hact_eq, ha, hoid]
    decide
  · rw [hoid_eq, hact_eq, ha, hoid]
    decide

/-- C8 counterexample: ranking is by the literal id prefix OPT_SWAP_FLIGHT
rather than by action type, and ASSIGN option ids are OPT_SWAP_ followed by
the pilot id. With a replacement pilot whose document id is FLIGHT1, an
FDTL options list containing a genuine SWAP_FLIGHT option gets the ASSIGN
option recommended instead, refuting the claim that any list containing a
SWAP_FLIGHT option has a SWAP_FLIGHT option recommended. -/
theorem C8_id_collision_counterexample :
    ((genOptions fdtlFlight [pilotFlightId] [fdtlFlight, candC1] 0).map
        (fun o => o.action_type)).contains "SWAP_FLIGHT" = true ∧
    (selectBest (genOptions fdtlFlight [pilotFlightId] [fdtlFlight, candC1] 0)).map
        (fun o => o.action_type) = some "ASSIGN" := by
  refine ⟨by decide, by decide⟩

/-- C8 amended: for a generated options list containing at least one
SWAP_FLIGHT option, provided no candidate pilot document id starts with
FLIGHT (so that no ASSIGN option id OPT_SWAP_(pilot id) collides with the
ranking prefix OPT_SWAP_FLIGHT), the recommended option is exactly the
first SWAP_FLIGHT option in list order — in the fog scenario, with swap
candidates sorted by soonest departure, the earliest-departure swap. -/
theorem C8_ranker_prefers_swap (fl : MainFlight) (pilots : List MainPilot)
    (flights : List MainFlight) (now : Int)
    (hp : ∀ p ∈ pilots, strStartsWith p.pid "FLIGHT" = false)
    (hs : ∃ o ∈ genOptions fl pilots flights now, o.action_type = "SWAP_FLIGHT") :
    selectBest (genOptions fl pilots flights now) =
      (genOptions fl pilots flights now).find?
        (fun o => o.action_type == "SWAP_FLIGHT") ∧
    ∃ b, selectBest (genOptions fl pilots flights now) = some b ∧
      b.action_type = "SWAP_FLIGHT" := by
  have hcongr := find?_congr_mem (genOptions_rank_pred fl pilots flights now hp)
  rcases hs with ⟨o₀, ho₀, ha₀⟩
  have hex : ∃ x ∈ genOptions fl pilots flights now,
      (x.action_type == "SWAP_FLIGHT") = true := ⟨o₀, ho₀, by rw [ha₀]; decide⟩
  have hsome := List.find?_isSome.mpr hex
  obtain ⟨b, hb⟩ := Option.isSome_iff_exists.mp hsome
  have hsel : selectBest (genOptions fl pilots flights now) = some b := by
    unfold selectBest
    rw [hcongr, hb]
  refine ⟨?_, b, hsel, ?_⟩
  · rw [hsel, hb]
  · have hpred := List.find?_some hb
    simpa using hpred

/-- Witness for C8 amended at the fog scenario: three ON_TIME candidates
departing at minutes 60, 90 and 100; the recommendation is the swap with
the earliest departure, minute 60. -/
theorem C8_ranker_prefers_swap_witness :
    (∀ p ∈ ([] : List MainPilot), strStartsWith p.pid "FLIGHT" = false) ∧
    (∃ o ∈ genOptions fogFlight [] [fogFlight, candC3, candC1, candC2] 0,
      o.action_type = "SWAP_FLIGHT") ∧
    (selectBest (genOptions fogFlight [] [fogFlight, candC3, candC1, candC2] 0) =
        (genOptions fogFlight [] [fogFlight, candC3, candC1, candC2] 0).find?
          (fun o => o.action_type == "SWAP_FLIGHT") ∧
      ∃ b, selectBest (genOptions fogFlight [] [fogFlight, candC3, candC1, candC2] 0) =
          some b ∧ b.action_type = "SWAP_FLIGHT") ∧
    (genOptions fogFlight [] [fogFlight, candC3, candC1, candC2] 0).find?
        (fun o => o.action_type == "SWAP_FLIGHT") =
      some (addCO2 (mkSwapFlightOption fogFlight candC2)) := by
  have hp : ∀ p ∈ ([] : List MainPilot), strStartsWith p.pid "FLIGHT" = false := by
    intro p hp
    exact absurd hp (List.not_mem_nil p)
  have hs : ∃ o ∈ genOptions fogFlight [] [fogFlight, candC3, candC1, candC2] 0,
      o.action_type = "SWAP_FLIGHT" :=
    ⟨addCO2 (mkSwapFlightOption fogFlight candC2), by decide, rfl⟩
  exact ⟨hp, hs,
    C8_ranker_prefers_swap fogFlight [] [fogFlight, candC3, candC1, candC2] 0 hp hs,
    by decide⟩
